import Mathlib

/-
  Shallow embedding of src/rbldnsd.c (the rbldnsd main program): the
  netlist matcher (ip4list_new / ip4list_match / parsenetlist), the
  signal bitset (sighandler and the drain in main), the main-loop drain
  ordering, statistics reporting (logstats), startup and reload
  behaviour (init / do_reload), the datagram-processing path of main,
  ip4parse_cidr and oom.

  Conventions: C `ip4addr_t` (uint32) is ℕ (all operations here are
  bitwise, so no wraparound arises); the C int verdict of a netlist
  entry (1 = allow / serviced, 0 = deny) is Bool; network byte order
  (htonl in the source) is elided because both the stored rules and the
  matched source address use the same representation; counters of
  struct dnsstats are ℕ (the C unsigned counters can wrap, which is
  immaterial to the properties proved here).
-/

namespace Rbldnsd

/-- One entry of `struct ip4list` (src/rbldnsd.c lines 32..36): a
pre-masked network address, the mask, and the verdict. -/
structure Ip4Rule where
  addr : ℕ
  mask : ℕ
  value : Bool
deriving DecidableEq, Repr

/-- `ip4list_new` (lines 167..174): stores `addr & mask`, the mask and
the verdict. -/
def ip4list_new (addr mask : ℕ) (value : Bool) : Ip4Rule :=
  ⟨addr &&& mask, mask, value⟩

/-- `ip4list_match` (lines 176..183): first rule whose
`(addr & mask) == addr` field wins; an exhausted list yields 0 (deny). -/
def ip4list_match : List Ip4Rule → ℕ → Bool
  | [], _ => false
  | e :: rest, addr =>
    if addr &&& e.mask == e.addr then e.value else ip4list_match rest addr

/-- Separator set of `parsenetlist` (`static const char *const sep = ",; "`). -/
def isSep (c : Char) : Bool := c == ',' || c == ';' || c == ' '

/-- Helper for `tokenize`: accumulates the current token (reversed). -/
def tokenizeAux : List Char → List Char → List String
  | [], acc => if acc.isEmpty then [] else [String.mk acc.reverse]
  | c :: cs, acc =>
    if isSep c then
      if acc.isEmpty then tokenizeAux cs []
      else String.mk acc.reverse :: tokenizeAux cs []
    else tokenizeAux cs (c :: acc)

/-- The strtok loop of `parsenetlist`: maximal runs of non-separator
characters, empty tokens dropped. -/
def tokenize (s : String) : List String := tokenizeAux s.toList []

/-- Decimal digit test (kernel-friendly form of C isdigit for this use). -/
def isDigitC (c : Char) : Bool := 48 ≤ c.toNat && c.toNat ≤ 57

/-- All-digit character runs parsed as a decimal number; none for an
empty or non-digit run. -/
def parseDecimal (cs : List Char) : Option ℕ :=
  if cs ≠ [] ∧ cs.all isDigitC then
    some (cs.foldl (fun n c => n * 10 + (c.toNat - 48)) 0)
  else none

/-- C `strchr(e, SLASH)` split: characters before the first slash and,
when a slash occurs, the characters after it. -/
def splitSlash : List Char → List Char × Option (List Char)
  | [] => ([], none)
  | c :: cs =>
    if c == '/' then ([], some cs)
    else
      let p := splitSlash cs
      (c :: p.1, p.2)

/-- Dot-separated groups of a character run. -/
def splitDots : List Char → List (List Char)
  | [] => [[]]
  | c :: cs =>
    if c == '.' then [] :: splitDots cs
    else
      match splitDots cs with
      | [] => [[c]]
      | g :: gs => (c :: g) :: gs

/-- `ip4mask(bits)`: the 32-bit mask with the top `bits` bits set.
Modelled from the spec (prefixLength 0..32, "address is pre-masked to
the prefix"); the ip4 helper library is not under src/. -/
def ip4mask (bits : ℕ) : ℕ := 2 ^ 32 - 2 ^ (32 - bits)

/-- Modelled from the spec: `ip4cidr` (ip4 helper library, not under
src/) parses a literal CIDR token ("a literal CIDR/host-with-optional-
mask", examples "127.0.0.1" and "127/8"): one to four dot-separated
decimal octets, each at most 255, packed into the high-order bytes,
optionally followed by a slash and a prefix length 1..32; without an
explicit prefix length the token gets 8 bits per given octet.  Returns
none where the C function returns 0 (parse failure). -/
def ip4cidr (s : String) : Option (ℕ × ℕ) :=
  let p := splitSlash s.toList
  match (splitDots p.1).mapM parseDecimal with
  | none => none
  | some octets =>
    if octets.length ≤ 4 ∧ octets.all (· ≤ 255) then
      let addr := (octets.foldl (fun a o => a * 256 + o) 0) <<< (8 * (4 - octets.length))
      match p.2 with
      | none => some (8 * octets.length, addr)
      | some bs =>
        match parseDecimal bs with
        | none => none
        | some b => if 1 ≤ b ∧ b ≤ 32 then some (b, addr) else none
    else none

/-- Modelled from the spec: C `atoi` applied to the characters after
the slash of a host token (libc, not under src/) — reads the leading
run of decimal digits (a leading minus sign would yield a value the
caller rejects just like 0, so it is folded into the digit-run model). -/
def atoiAux : List Char → ℕ → ℕ
  | [], n => n
  | c :: cs, n => if isDigitC c then atoiAux cs (n * 10 + (c.toNat - 48)) else n

/-- C `atoi` on a character run (see `atoiAux`). -/
def atoi (cs : List Char) : ℕ := atoiAux cs 0

/-- Character class of the strspn test in `parsenetlist`
(`strspn(e, "0123456789./") == strlen(e)`). -/
def ipTokenChar (c : Char) : Bool := isDigitC c || c == '.' || c == '/'

/-- Mask of a host token (lines 207..217): explicit `/bits` must have
1 ≤ bits ≤ 32 (else `error`), otherwise the full /32 mask. -/
def hostMaskOf : Option (List Char) → Option ℕ
  | some ms => if 1 ≤ atoi ms ∧ atoi ms ≤ 32 then some (ip4mask (atoi ms)) else none
  | none => some (2 ^ 32 - 1)

/-- One token of `parsenetlist` (lines 196..227) after the optional
negation marker was stripped; `dns` models `gethostbyname` (resolver is
not under src/): some addrs = the resolved IPv4 addresses, none =
lookup failure (which is fatal, `error`).  none = the whole netlist is
rejected via `error`. -/
def parseNetToken (dns : String → Option (List ℕ)) (e : String) (accept : Bool) :
    Option (List Ip4Rule) :=
  if e.toList.all ipTokenChar then
    match ip4cidr e with
    | none => none
    | some ba => some [ip4list_new ba.2 (ip4mask ba.1) accept]
  else
    match hostMaskOf (splitSlash e.toList).2, dns (String.mk (splitSlash e.toList).1) with
    | some mask, some addrs => some (addrs.map fun a => ip4list_new a mask accept)
    | _, _ => none

/-- Negation marker test of `parsenetlist` (line 194): only the first
character of the token is examined. -/
def tokenNeg (t : String) : Bool :=
  match t.toList with
  | c :: _ => c == '!'
  | [] => false

/-- The verdict a token assigns to its rules: allow unless the token
carries the marker (`accept = 1` / `accept = 0`, lines 194..195). -/
def tokenAccept (t : String) : Bool := !tokenNeg t

/-- The token with the negation marker stripped (`++e`, line 195). -/
def tokenBody (t : String) : String :=
  match t.toList with
  | c :: cs => if c == '!' then String.mk cs else t
  | [] => t

/-- One full token of the `parsenetlist` loop: marker handling plus
`parseNetToken`. -/
def parseToken (dns : String → Option (List ℕ)) (t : String) : Option (List Ip4Rule) :=
  parseNetToken dns (tokenBody t) (tokenAccept t)

/-- The token loop of `parsenetlist` (lines 190..228): threads the C
`accept` variable (each iteration overwrites it from its own token) and
returns the accumulated rules together with the final `accept`. -/
def netlistGo (dns : String → Option (List ℕ)) :
    List String → Bool → Option (List Ip4Rule × Bool)
  | [], accept => some ([], accept)
  | t :: ts, _ =>
    match parseToken dns t, netlistGo dns ts (tokenAccept t) with
    | some rs, some la => some (rs ++ la.1, la.2)
    | _, _ => none

/-- `parsenetlist` (lines 185..233): tokenize, parse each token, then
append the catch-all `ip4list_new(0, 0, NOT accept)` (lines 230..231). -/
def parsenetlist (dns : String → Option (List ℕ)) (s : String) :
    Option (List Ip4Rule) :=
  (netlistGo dns (tokenize s) true).map fun p => p.1 ++ [⟨0, 0, !p.2⟩]

/-- A resolver that knows no hosts (sufficient for purely literal specs,
which never consult it). -/
def dnsNone : String → Option (List ℕ) := fun _ => none

/-- The SIGNALLED_ALRM bit (line 236). -/
def SIGNALLED_ALRM : ℕ := 0x01

/-- The SIGNALLED_HUP bit (line 237). -/
def SIGNALLED_HUP : ℕ := 0x02

/-- The SIGNALLED_USR1 bit (line 238). -/
def SIGNALLED_USR1 : ℕ := 0x04

/-- The SIGNALLED_USR2 bit (line 239). -/
def SIGNALLED_USR2 : ℕ := 0x08

/-- The SIGNALLED_TERM bit (line 240). -/
def SIGNALLED_TERM : ℕ := 0x10

/-- The signal kinds tracked by `sighandler` (lines 428..438). -/
inductive SigKind
  | alrm
  | hup
  | usr1
  | usr2
  | term
deriving DecidableEq, Repr

/-- The bit `sighandler` ORs into `signalled` for each kind (SIGTERM and
SIGINT both map to SIGNALLED_TERM). -/
def SigKind.mask : SigKind → ℕ
  | .alrm => SIGNALLED_ALRM
  | .hup => SIGNALLED_HUP
  | .usr1 => SIGNALLED_USR1
  | .usr2 => SIGNALLED_USR2
  | .term => SIGNALLED_TERM

/-- One invocation of `sighandler`: `signalled |= bit` (the SIGALRM case
also re-arms the alarm, which does not touch the bitset). -/
def raiseSignal (k : SigKind) (s : ℕ) : ℕ := s ||| k.mask

/-- A sequence of handler invocations applied to the bitset. -/
def raiseAll (ops : List SigKind) (s : ℕ) : ℕ :=
  ops.foldl (fun t k => raiseSignal k t) s

/-- The read-then-clear of the drain in main (lines 529..547), performed
with all tracked signals blocked: the snapshot is the whole bitset and
the bitset becomes 0 (`signalled = 0`). -/
def drainSignals (s : ℕ) : ℕ × ℕ := (s, 0)

/-- `struct dnsstats` as used by src/rbldnsd.c (declared in rbldnsd.h,
which is not under src/): epoch start time plus the counters named in
`logstats` and the main loop. -/
structure DnsStats where
  stime : ℤ
  nrep : ℕ
  irep : ℕ
  orep : ℕ
  arep : ℕ
  nnxd : ℕ
  inxd : ℕ
  onxd : ℕ
  nerr : ℕ
  ierr : ℕ
  oerr : ℕ
  nbad : ℕ
  ibad : ℕ
deriving DecidableEq, Repr

/-- The all-zero stats with a fresh epoch timestamp: the effect of
`memset(s, 0, sizeof(*s)); s->stime = t;` (lines 482..483). -/
def zeroStats (t : ℤ) : DnsStats :=
  ⟨t, 0, 0, 0, 0, 0, 0, 0, 0, 0, 0, 0, 0⟩

/-- The single summary line emitted by `logstats` (lines 465..480):
elapsed seconds and every printed counter, including the tot aggregates. -/
structure StatsLine where
  elapsed : ℤ
  totNum : ℕ
  totIn : ℕ
  totOut : ℕ
  totAns : ℕ
  nrep : ℕ
  irep : ℕ
  orep : ℕ
  arep : ℕ
  nnxd : ℕ
  inxd : ℕ
  onxd : ℕ
  nerr : ℕ
  ierr : ℕ
  oerr : ℕ
  nbad : ℕ
  ibad : ℕ
deriving DecidableEq, Repr

/-- `logstats` (lines 463..485) with the `time(NULL)` result passed in
as `t`: emits the summary line and, when `reset`, zeroes the counters
and restarts the epoch clock from the same `t`. -/
def logstats (s : DnsStats) (reset : Bool) (t : ℤ) : StatsLine × DnsStats :=
  (⟨t - s.stime,
    s.nrep + s.nnxd + s.nerr + s.nbad,
    s.irep + s.inxd + s.ierr,
    s.orep + s.onxd + s.oerr,
    s.arep,
    s.nrep, s.irep, s.orep, s.arep,
    s.nnxd, s.inxd, s.onxd,
    s.nerr, s.ierr, s.oerr,
    s.nbad, s.ibad⟩,
   if reset then zeroStats t else s)

/-- The observable steps of one drain of `signalled` in main
(lines 529..547). -/
inductive DrainAction
  | logTerminating
  | statsReport (reset : Bool)
  | memReport
  | logRotate
  | reloadZones
deriving DecidableEq, Repr

/-- Modelled from the spec: the external `reloadzones` contract
("reloadAll(currentSnapshotSet) -> unchanged | failed |
updated(newSnapshotSet)"); the zone/dataset subsystem is not under
src/. -/
inductive ReloadOutcome (D : Type)
  | unchanged
  | failed
  | updated (d : D)

/-- The dataset transition and the integer code of `reloadzones` for a
given outcome: a failed reload leaves the previous snapshot current and
reports a negative code; unchanged reports 0; updated installs the new
snapshot and reports a positive code. -/
def applyReload {D : Type} (cur : D) : ReloadOutcome D → D × ℤ
  | .unchanged => (cur, 0)
  | .failed => (cur, -1)
  | .updated d => (d, 1)

/-- `do_reload` (lines 100..130) as a function of the `reloadzones`
code `r`: `if (!r) return 1; ... return r < 0 ? 0 : 1;` (the timing and
memory telemetry do not affect the result). -/
def do_reload (r : ℤ) : Bool :=
  if r = 0 then true else if r < 0 then false else true

/-- The drain block of main (lines 529..548) over one snapshot `sig` of
`signalled`: the TERM check comes first and returns from main after a
non-resetting stats report and the memory report; otherwise the
USR1/USR2 stats report (reset iff USR2), the HUP log reopen (only with
a configured logfile), and the HUP/ALRM reload run in that order.
Result: the action trace, whether main returned, and the current
dataset after the drain (`out` is the outcome `reloadzones` would
produce; its code is discarded by the loop exactly as in the source). -/
def mainDrainStep {D : Type} (sig : ℕ) (haveLogfile : Bool) (cur : D)
    (out : ReloadOutcome D) : List DrainAction × Bool × D :=
  if sig &&& SIGNALLED_TERM ≠ 0 then
    ([.logTerminating, .statsReport false, .memReport], true, cur)
  else
    ((if sig &&& (SIGNALLED_USR1 ||| SIGNALLED_USR2) ≠ 0 then
        [DrainAction.statsReport (decide (sig &&& SIGNALLED_USR2 ≠ 0)),
         DrainAction.memReport]
      else []) ++
     (if sig &&& SIGNALLED_HUP ≠ 0 ∧ haveLogfile = true then
        [DrainAction.logRotate]
      else []) ++
     (if sig &&& (SIGNALLED_HUP ||| SIGNALLED_ALRM) ≠ 0 then
        [DrainAction.reloadZones]
      else []),
     false,
     if sig &&& (SIGNALLED_HUP ||| SIGNALLED_ALRM) ≠ 0 then
       (applyReload cur out).1
     else cur)

/-- Priority rank of a drain action: shutdown handling first, then the
stats report and telemetry, then the log rotate, then the reload. -/
def drainRank : DrainAction → ℕ
  | .logTerminating => 0
  | .statsReport _ => 1
  | .memReport => 1
  | .logRotate => 2
  | .reloadZones => 3

/-- The zone-loading decision of `init` (lines 401..409) as a function
of the `reloadzones` code `r` the initial load would report: none means
the process exits fatally (`error("zone loading errors, aborting")`);
otherwise some (initial `signalled` bitset, value of `initialized`).
Quickstart skips the load and pre-raises SIGNALLED_ALRM instead. -/
def initStartup (quickstart : Bool) (r : ℤ) : Option (ℕ × Bool) :=
  if quickstart then some (SIGNALLED_ALRM, true)
  else if do_reload r then some (0, true) else none

/-- Chronology markers for the first dataset load. -/
inductive StartupEvent
  | loadAttempt (initializedFlag : Bool)
  | setInitialized
  | abortStartup
deriving DecidableEq, Repr

/-- Chronology of the first dataset load across `init` (lines 401..409)
and, for quickstart, the first drain of the main loop: quickstart sets
`signalled = SIGNALLED_ALRM` and `initialized = 1`, so the deferred
first load runs with `initialized` already set; otherwise the load runs
before `initialized = 1` and a failure aborts the process. -/
def initTrace (quickstart : Bool) (r : ℤ) : List StartupEvent :=
  if quickstart then [.setInitialized, .loadAttempt true]
  else if do_reload r then [.loadAttempt false, .setInitialized]
  else [.loadAttempt false, .abortStartup]

/-- What `oom` does (lines 608..613). -/
inductive OomEffect
  | logZoneEmpty
  | abortProcess
deriving DecidableEq, Repr

/-- `oom` (lines 608..613): after initialization an allocation failure
only logs "out of memory loading zone (zone will be empty)"; before it,
`error` aborts the process. -/
def oom (initializedFlag : Bool) : OomEffect :=
  if initializedFlag then .logZoneEmpty else .abortProcess

/-- Modelled from the spec: the no-error outcome code ("values:
no-error, name-not-found, other"; dns.h is not under src/). -/
def DNS_R_NOERROR : ℕ := 0

/-- Modelled from the spec: the name-not-found outcome code (dns.h is
not under src/). -/
def DNS_R_NXDOMAIN : ℕ := 3

/-- The query-access test of main (line 554): a datagram is dropped iff
a filter is configured and `ip4list_match` rejects the source. -/
def qryReject (qryfilt : Option (List Ip4Rule)) (src : ℕ) : Bool :=
  match qryfilt with
  | none => false
  | some f => !ip4list_match f src

/-- The outcome-class switch of main (lines 568..579) on the reply-code
byte `rcode` (pkt.p_buf[3]) with request size `q`, reply size `r` and
additional-record count `arcount` (pkt.p_buf[7]). -/
def classifyStats (s : DnsStats) (rcode q r arcount : ℕ) : DnsStats :=
  if rcode = DNS_R_NOERROR then
    { s with nrep := s.nrep + 1, irep := s.irep + q, orep := s.orep + r,
             arep := s.arep + arcount }
  else if rcode = DNS_R_NXDOMAIN then
    { s with nnxd := s.nnxd + 1, inxd := s.inxd + q, onxd := s.onxd + r }
  else
    { s with nerr := s.nerr + 1, ierr := s.ierr + q, oerr := s.oerr + r }

/-- The datagram-processing path of one main-loop iteration
(lines 550..585): `q` is the recvfrom result (0 models a failed or
empty read), `src` the source address, `reply` the external
`replypacket` result as (reply length r with 0 = no reply, reply-code
byte, arcount).  Result: the new stats, whether a record is appended to
the query log, and the length of the reply sent (none = none sent). -/
def processDatagram (qryfilt logfilt : Option (List Ip4Rule)) (haveLog : Bool)
    (q src : ℕ) (reply : ℕ × ℕ × ℕ) (s : DnsStats) :
    DnsStats × Bool × Option ℕ :=
  if q = 0 then (s, false, none)
  else if qryReject qryfilt src then (s, false, none)
  else if reply.1 = 0 then
    ({ s with nbad := s.nbad + 1, ibad := s.ibad + q }, false, none)
  else
    (classifyStats s reply.2.1 q reply.1 reply.2.2,
     haveLog && (match logfilt with
                 | none => true
                 | some f => ip4list_match f src),
     some reply.1)

/-- `ip4parse_cidr` (lines 589..599) over the modelled `ip4cidr`:
`hmask` is the 32-bit complement of `ip4mask bits` (the host-bit mask);
an address with host bits set is rejected without `accept_in_cidr` and
otherwise the source keeps `*ap &= hmask`. -/
def ip4parse_cidr (acceptInCidr : Bool) (s : String) : Option (ℕ × ℕ) :=
  match ip4cidr s with
  | none => none
  | some ba =>
    let hmask := 2 ^ 32 - 1 - ip4mask ba.1
    if ba.2 &&& hmask ≠ 0 then
      if !acceptInCidr then none
      else some (ba.1, ba.2 &&& hmask)
    else some (ba.1, ba.2)

/-- Distributing a bitwise and over a bitwise or. -/
theorem and_or_right_nat (a b m : ℕ) :
    (a ||| b) &&& m = (a &&& m) ||| (b &&& m) := by
  apply Nat.eq_of_testBit_eq
  intro i
  simp only [Nat.testBit_and, Nat.testBit_or]
  cases a.testBit i <;> cases b.testBit i <;> cases m.testBit i <;> rfl

/-- Oring a value back with a part of itself changes nothing. -/
theorem or_and_self_nat (m z : ℕ) : m ||| (z &&& m) = m := by
  apply Nat.eq_of_testBit_eq
  intro i
  simp only [Nat.testBit_and, Nat.testBit_or]
  cases m.testBit i <;> cases z.testBit i <;> rfl

/-- A bit pattern already present in the bitset survives any further
handler invocations. -/
theorem raiseAll_preserves (m : ℕ) :
    ∀ (ops : List SigKind) (s : ℕ), s &&& m = m → raiseAll ops s &&& m = m := by
  intro ops
  induction ops with
  | nil => intro s h; simpa [raiseAll] using h
  | cons x xs ih =>
    intro s h
    have h2 : (s ||| x.mask) &&& m = m := by
      rw [and_or_right_nat, h, or_and_self_nat]
    simpa [raiseAll, raiseSignal, List.foldl] using ih (s ||| x.mask) h2

/-- A raised kind is present in the final bitset. -/
theorem raiseAll_mem_set (k : SigKind) :
    ∀ (ops : List SigKind) (s : ℕ), k ∈ ops → raiseAll ops s &&& k.mask = k.mask := by
  intro ops
  induction ops with
  | nil => intro s h; cases h
  | cons x xs ih =>
    intro s h
    rcases List.mem_cons.mp h with rfl | hx
    · have h2 : (s ||| k.mask) &&& k.mask = k.mask := by
        rw [and_or_right_nat, Nat.and_self, Nat.or_comm, or_and_self_nat]
      simpa [raiseAll, raiseSignal, List.foldl] using
        raiseAll_preserves k.mask xs (s ||| k.mask) h2
    · simpa [raiseAll, raiseSignal, List.foldl] using ih (s ||| x.mask) hx

/-- `ip4list_match` is the verdict of the first matching rule (deny when
nothing matches). -/
theorem match_eq_find (a : ℕ) : ∀ l : List Ip4Rule,
    ip4list_match l a
      = (((l.find? fun r => a &&& r.mask == r.addr).map Ip4Rule.value).getD false) := by
  intro l
  induction l with
  | nil => rfl
  | cons e rest ih =>
    cases hb : (a &&& e.mask == e.addr) <;>
      simp [ip4list_match, List.find?_cons, hb, ih]

/-- A list ending in an entry the predicate accepts always has a first
match. -/
theorem find?_concat_isSome {α : Type} (p : α → Bool) (c : α) (hc : p c = true) :
    ∀ l : List α, ((l ++ [c]).find? p).isSome = true := by
  intro l
  induction l with
  | nil => simp [List.find?, hc]
  | cons x xs ih =>
    cases hx : p x
    · simpa [List.find?_cons, hx] using ih
    · simp [List.find?_cons, hx]

/-- Every rule produced for one token carries that token's verdict. -/
theorem parseNetToken_value (dns : String → Option (List ℕ)) (e : String)
    (acc : Bool) (rs : List Ip4Rule) (h : parseNetToken dns e acc = some rs) :
    ∀ r ∈ rs, r.value = acc := by
  unfold parseNetToken at h
  by_cases hip : e.toList.all ipTokenChar = true
  · rw [if_pos hip] at h
    cases hc : ip4cidr e with
    | none => rw [hc] at h; cases h
    | some ba =>
      rw [hc] at h
      simp only [Option.some.injEq] at h
      subst h
      intro r hr
      simp only [List.mem_singleton] at hr
      subst hr
      rfl
  · rw [if_neg hip] at h
    cases hm : hostMaskOf (splitSlash e.toList).2 with
    | none => rw [hm] at h; cases h
    | some mask =>
      cases hd : dns (String.mk (splitSlash e.toList).1) with
      | none => rw [hm, hd] at h; cases h
      | some addrs =>
        rw [hm, hd] at h
        simp only [Option.some.injEq] at h
        subst h
        intro r hr
        rcases List.mem_map.mp hr with ⟨a, _, rfl⟩
        rfl

/-- The final `accept` of the token loop is the verdict of the last
token. -/
theorem netlistGo_lastAccept (dns : String → Option (List ℕ)) :
    ∀ (ts : List String) (acc : Bool) (l : List Ip4Rule) (a : Bool) (t : String),
      netlistGo dns ts acc = some (l, a) → ts.getLast? = some t →
      a = tokenAccept t := by
  intro ts
  induction ts with
  | nil => intro acc l a t h hl; simp at hl
  | cons t0 ts ih =>
    intro acc l a t h hl
    cases hp : parseToken dns t0 with
    | none => simp [netlistGo, hp] at h
    | some rs =>
      cases hg : netlistGo dns ts (tokenAccept t0) with
      | none => simp [netlistGo, hp, hg] at h
      | some la =>
        simp only [netlistGo, hp, hg, Option.some.injEq] at h
        obtain ⟨l', a'⟩ := la
        cases ts with
        | nil =>
          simp only [netlistGo, Option.some.injEq, Prod.mk.injEq] at hg
          simp only [List.getLast?_singleton, Option.some.injEq] at hl
          subst hl
          cases h
          exact hg.2.symm
        | cons t1 ts2 =>
          rw [List.getLast?_cons_cons] at hl
          cases h
          exact ih (tokenAccept t0) l' a' t hg hl

/-- Claim C1: for every netlist built by `parsenetlist` the matcher
scans the rules in build order and returns the verdict of the first
rule whose masked address equals the rule network; the appended mask-0
catch-all guarantees a first match for every address; and on the spec
"127.0.0.1,!127/8", 127.0.0.2 is denied while 127.0.0.1 is allowed. -/
theorem c1_first_match_semantics :
    (∀ (l : List Ip4Rule) (a : ℕ),
        ip4list_match l a
          = (((l.find? fun r => a &&& r.mask == r.addr).map Ip4Rule.value).getD false))
    ∧ (∀ (dns : String → Option (List ℕ)) (s : String) (rules : List Ip4Rule),
        parsenetlist dns s = some rules →
        ∀ a : ℕ, ((rules.find? fun r => a &&& r.mask == r.addr)).isSome = true)
    ∧ (parsenetlist dnsNone "127.0.0.1,!127/8").map
        (fun rs => ip4list_match rs 0x7F000002) = some false
    ∧ (parsenetlist dnsNone "127.0.0.1,!127/8").map
        (fun rs => ip4list_match rs 0x7F000001) = some true := by
  refine ⟨fun l a => match_eq_find a l, ?_, by decide, by decide⟩
  intro dns s rules hr a
  unfold parsenetlist at hr
  rw [Option.map_eq_some'] at hr
  obtain ⟨p, _, hrules⟩ := hr
  subst hrules
  exact find?_concat_isSome _ _ (by simp) p.1

/-- Claim C1 witness: the catch-all guarantee instantiated on the
concrete netlist of the example. -/
theorem c1_first_match_semantics_wit :
    (([⟨0x7F000001, 0xFFFFFFFF, true⟩, ⟨0x7F000000, 0xFF000000, false⟩,
       ⟨0, 0, true⟩] : List Ip4Rule).find?
        fun r => 0x0A000001 &&& r.mask == r.addr).isSome = true :=
  c1_first_match_semantics.2.1 dnsNone "127.0.0.1,!127/8"
    [⟨0x7F000001, 0xFFFFFFFF, true⟩, ⟨0x7F000000, 0xFF000000, false⟩, ⟨0, 0, true⟩]
    (by decide) 0x0A000001

/-- Claim C2 counterexample: the empty spec yields only the catch-all
with verdict deny, so 127.0.0.1 is denied — not allowed as claimed. -/
theorem c2_empty_spec_cx :
    parsenetlist dnsNone "" = some [⟨0, 0, false⟩]
    ∧ (parsenetlist dnsNone "").map (fun rs => ip4list_match rs 0x7F000001)
        = some false
    ∧ ¬ (parsenetlist dnsNone "").map (fun rs => ip4list_match rs 0x7F000001)
        = some true := by
  refine ⟨by decide, by decide, by decide⟩

/-- Claim C2 (amended): building from an empty spec yields a matcher
consisting of only the catch-all rule with verdict deny (the C `accept`
variable starts at 1 and the catch-all gets its negation), so match(A)
is false for every address A. -/
theorem c2_empty_spec_deny (dns : String → Option (List ℕ)) :
    parsenetlist dns "" = some [⟨0, 0, false⟩]
    ∧ ∀ a : ℕ, ip4list_match [⟨0, 0, false⟩] a = false := by
  refine ⟨rfl, ?_⟩
  intro a
  simp [ip4list_match]

/-- Claim C3: the negation marker is per token — the rules of a token
always carry the verdict derived from that token's own marker and the
loop state left by earlier tokens is irrelevant — and the catch-all
verdict is the negation of the last token's verdict. -/
theorem c3_negation_per_token :
    (∀ (dns : String → Option (List ℕ)) (t : String) (ts : List String)
        (a1 a2 : Bool), netlistGo dns (t :: ts) a1 = netlistGo dns (t :: ts) a2)
    ∧ (∀ (dns : String → Option (List ℕ)) (t : String) (rs : List Ip4Rule),
        parseToken dns t = some rs → ∀ r ∈ rs, r.value = tokenAccept t)
    ∧ (∀ (dns : String → Option (List ℕ)) (s : String) (rules : List Ip4Rule)
        (t : String), parsenetlist dns s = some rules →
        (tokenize s).getLast? = some t →
        rules.getLast? = some ⟨0, 0, !tokenAccept t⟩) := by
  refine ⟨fun dns t ts a1 a2 => rfl, ?_, ?_⟩
  · intro dns t rs h
    exact parseNetToken_value dns (tokenBody t) (tokenAccept t) rs h
  · intro dns s rules t hr hl
    unfold parsenetlist at hr
    rw [Option.map_eq_some'] at hr
    obtain ⟨p, hp, hrules⟩ := hr
    subst hrules
    rw [List.getLast?_concat]
    obtain ⟨l, a⟩ := p
    have := netlistGo_lastAccept dns (tokenize s) true l a t hp hl
    simp [this]

/-- Claim C3 witness: the catch-all of "127.0.0.1,!127/8" negates the
verdict of the last token "!127/8", hence is allow. -/
theorem c3_negation_per_token_wit :
    ([⟨0x7F000001, 0xFFFFFFFF, true⟩, ⟨0x7F000000, 0xFF000000, false⟩,
      ⟨0, 0, true⟩] : List Ip4Rule).getLast? = some ⟨0, 0, !tokenAccept "!127/8"⟩ :=
  c3_negation_per_token.2.2 dnsNone "127.0.0.1,!127/8"
    [⟨0x7F000001, 0xFFFFFFFF, true⟩, ⟨0x7F000000, 0xFF000000, false⟩, ⟨0, 0, true⟩]
    "!127/8" (by decide) (by decide)

/-- Claim C4: for any interleaving of handler invocations containing at
least one raise of kind K, the drain snapshot observes K set, the
bitset is cleared, and an immediately following second drain observes K
absent — no raise is lost, no drained event reappears. -/
theorem c4_signal_raise_drain (s0 : ℕ) (ops : List SigKind) (k : SigKind)
    (h : k ∈ ops) :
    (drainSignals (raiseAll ops s0)).1 &&& k.mask = k.mask
    ∧ (drainSignals (raiseAll ops s0)).2 = 0
    ∧ (drainSignals (drainSignals (raiseAll ops s0)).2).1 &&& k.mask = 0 := by
  refine ⟨raiseAll_mem_set k ops s0 h, rfl, ?_⟩
  simp [drainSignals]

/-- Claim C4 witness: three interleaved raises (HUP, ALRM, HUP again)
then a drain: HUP is observed set once and absent in the second drain. -/
theorem c4_signal_raise_drain_wit :
    (drainSignals (raiseAll [SigKind.hup, SigKind.alrm, SigKind.hup] 0)).1
        &&& SigKind.hup.mask = SigKind.hup.mask
    ∧ (drainSignals (raiseAll [SigKind.hup, SigKind.alrm, SigKind.hup] 0)).2 = 0
    ∧ (drainSignals
        (drainSignals (raiseAll [SigKind.hup, SigKind.alrm, SigKind.hup] 0)).2).1
        &&& SigKind.hup.mask = 0 :=
  c4_signal_raise_drain 0 [SigKind.hup, SigKind.alrm, SigKind.hup] SigKind.hup
    (by decide)

/-- Claim C5: in a drain the handling order is fixed — shutdown first,
then the stats report and telemetry, then the log rotate, then the
reload — and a pending shutdown yields exactly a non-resetting final
stats report plus the memory report before main returns, with no
reload performed in that drain even when one is also pending. -/
theorem c5_drain_priority_shutdown :
    (∀ (sig : ℕ) (lf : Bool) (cur : ℕ) (out : ReloadOutcome ℕ),
        sig &&& SIGNALLED_TERM ≠ 0 →
        mainDrainStep sig lf cur out
          = ([.logTerminating, .statsReport false, .memReport], true, cur)
        ∧ DrainAction.reloadZones ∉ (mainDrainStep sig lf cur out).1)
    ∧ (∀ (sig : ℕ) (lf : Bool) (cur : ℕ) (out : ReloadOutcome ℕ),
        (mainDrainStep sig lf cur out).1.Pairwise
          fun x y => drainRank x ≤ drainRank y) := by
  constructor
  · intro sig lf cur out h
    refine ⟨by simp [mainDrainStep, h], ?_⟩
    simp [mainDrainStep, h]
  · intro sig lf cur out
    by_cases h : sig &&& SIGNALLED_TERM ≠ 0
    · simp only [mainDrainStep, if_pos h]
      decide
    · simp only [mainDrainStep, if_neg h]
      by_cases h1 : sig &&& (SIGNALLED_USR1 ||| SIGNALLED_USR2) ≠ 0 <;>
        by_cases h2 : sig &&& SIGNALLED_HUP ≠ 0 ∧ lf = true <;>
          by_cases h3 : sig &&& (SIGNALLED_HUP ||| SIGNALLED_ALRM) ≠ 0 <;>
            simp [h1, h2, h3, List.pairwise_cons, drainRank]

/-- Claim C5 witness: a snapshot with both TERM and ALRM pending yields
only the final non-resetting report and no reload. -/
theorem c5_drain_priority_shutdown_wit :
    mainDrainStep 0x11 true (0 : ℕ) ReloadOutcome.unchanged
      = ([.logTerminating, .statsReport false, .memReport], true, 0)
    ∧ DrainAction.reloadZones
        ∉ (mainDrainStep 0x11 true (0 : ℕ) ReloadOutcome.unchanged).1 :=
  c5_drain_priority_shutdown.1 0x11 true 0 ReloadOutcome.unchanged (by decide)

/-- Claim C6: a datagram whose source the configured query-access
matcher rejects produces no reply, no stats change and no log record. -/
theorem c6_access_filter_drop (qryfilt logfilt : Option (List Ip4Rule))
    (haveLog : Bool) (q src : ℕ) (reply : ℕ × ℕ × ℕ) (s : DnsStats)
    (f : List Ip4Rule) (hf : qryfilt = some f)
    (hm : ip4list_match f src = false) :
    processDatagram qryfilt logfilt haveLog q src reply s = (s, false, none) := by
  unfold processDatagram
  by_cases hq : q = 0
  · rw [if_pos hq]
  · rw [if_neg hq, if_pos]
    simp [qryReject, hf, hm]

/-- Claim C6 witness: a deny-all query filter drops a 12-byte datagram
from 0.0.0.5 leaving the zeroed stats intact. -/
theorem c6_access_filter_drop_wit :
    processDatagram (some [⟨0, 0, false⟩]) none false 12 5 (4, 0, 0) (zeroStats 0)
      = (zeroStats 0, false, none) :=
  c6_access_filter_drop (some [⟨0, 0, false⟩]) none false 12 5 (4, 0, 0)
    (zeroStats 0) [⟨0, 0, false⟩] rfl (by decide)

/-- Claim C7: a failed load is fatal exactly for the initial
non-quickstart load; quickstart always proceeds with the first load
deferred behind the pre-raised reload-timer bit; and at runtime the
drain ignores the reload result — the loop neither terminates nor, on a
failed reload, replaces the current dataset. -/
theorem c7_reload_fatality :
    (∀ r : ℤ, initStartup false r = none ↔ r < 0)
    ∧ (∀ r : ℤ, initStartup true r = some (SIGNALLED_ALRM, true))
    ∧ (∀ (sig : ℕ) (lf : Bool) (cur : ℕ) (o1 o2 : ReloadOutcome ℕ),
        (mainDrainStep sig lf cur o1).1 = (mainDrainStep sig lf cur o2).1
        ∧ (mainDrainStep sig lf cur o1).2.1 = (mainDrainStep sig lf cur o2).2.1)
    ∧ (∀ (sig : ℕ) (lf : Bool) (cur : ℕ), sig &&& SIGNALLED_TERM = 0 →
        (mainDrainStep sig lf cur ReloadOutcome.failed).2.1 = false
        ∧ (mainDrainStep sig lf cur ReloadOutcome.failed).2.2 = cur) := by
  refine ⟨?_, fun r => rfl, ?_, ?_⟩
  · intro r
    unfold initStartup do_reload
    by_cases h0 : r = 0
    · simp [h0]
    · by_cases h1 : r < 0 <;> simp [h0, h1]
  · intro sig lf cur o1 o2
    by_cases h : sig &&& SIGNALLED_TERM ≠ 0 <;> simp [mainDrainStep, h]
  · intro sig lf cur h
    have h2 : ¬ sig &&& SIGNALLED_TERM ≠ 0 := by simp [h]
    refine ⟨by simp [mainDrainStep, if_neg h2], ?_⟩
    simp only [mainDrainStep, if_neg h2]
    by_cases h3 : sig &&& (SIGNALLED_HUP ||| SIGNALLED_ALRM) ≠ 0 <;>
      simp [h3, applyReload]

/-- Claim C7 witness: a timer-triggered drain whose reload fails leaves
the loop running and dataset 7 current. -/
theorem c7_reload_fatality_wit :
    (mainDrainStep SIGNALLED_ALRM false (7 : ℕ) ReloadOutcome.failed).2.1 = false
    ∧ (mainDrainStep SIGNALLED_ALRM false (7 : ℕ) ReloadOutcome.failed).2.2 = 7 :=
  c7_reload_fatality.2.2.2 SIGNALLED_ALRM false 7 (by decide)

/-- Claim C8: a resetting report zeroes every counter and restarts the
epoch clock from the very timestamp used for the reported elapsed time,
so an immediately following non-resetting report shows all-zero
counters and a non-negative elapsed time. -/
theorem c8_stats_reset (s : DnsStats) (t1 t2 : ℤ) (h : t1 ≤ t2) :
    (logstats s true t1).1.elapsed = t1 - s.stime
    ∧ (logstats s true t1).2 = zeroStats t1
    ∧ (logstats (logstats s true t1).2 false t2).1
        = ⟨t2 - t1, 0, 0, 0, 0, 0, 0, 0, 0, 0, 0, 0, 0, 0, 0, 0, 0⟩
    ∧ 0 ≤ (logstats (logstats s true t1).2 false t2).1.elapsed := by
  refine ⟨rfl, rfl, rfl, ?_⟩
  simp [logstats, zeroStats]
  omega

/-- Claim C8 witness: a concrete stats record reset at time 10 and
reported again at time 12. -/
theorem c8_stats_reset_wit :
    (logstats ⟨3, 1, 2, 3, 4, 5, 6, 7, 8, 9, 10, 11, 12⟩ true 10).1.elapsed = 10 - 3
    ∧ (logstats ⟨3, 1, 2, 3, 4, 5, 6, 7, 8, 9, 10, 11, 12⟩ true 10).2 = zeroStats 10
    ∧ (logstats (logstats ⟨3, 1, 2, 3, 4, 5, 6, 7, 8, 9, 10, 11, 12⟩ true 10).2
          false 12).1
        = ⟨12 - 10, 0, 0, 0, 0, 0, 0, 0, 0, 0, 0, 0, 0, 0, 0, 0, 0⟩
    ∧ 0 ≤ (logstats (logstats ⟨3, 1, 2, 3, 4, 5, 6, 7, 8, 9, 10, 11, 12⟩ true 10).2
          false 12).1.elapsed :=
  c8_stats_reset ⟨3, 1, 2, 3, 4, 5, 6, 7, 8, 9, 10, 11, 12⟩ 10 12 (by decide)

/-- Claim C9: the code keeps exactly the host bits. On "127.0.0.1/8" the
non-permissive mode rejects as claimed, but with accept_in_cidr the
source computes `*ap &= hmask` with hmask = NOT ip4mask(8), returning
address 0.0.0.1 — the network bits are cleared and the host bits kept,
the opposite of the claimed masking to the prefix (127.0.0.0). -/
theorem c9_cidr_hostbits_bug :
    ip4parse_cidr false "127.0.0.1/8" = none
    ∧ ip4parse_cidr true "127.0.0.1/8" = some (8, 1)
    ∧ ¬ ip4parse_cidr true "127.0.0.1/8" = some (8, 0x7F000000) := by
  refine ⟨by decide, by decide, by decide⟩

/-- Claim C10: under quickstart the first load is attempted only after
`initialized` is set, so an allocation failure during it merely logs
and leaves the zone empty; without quickstart the initial load runs
with `initialized` unset, where `oom` aborts the process. -/
theorem c10_quickstart_oom :
    (∀ r : ℤ, initTrace true r = [.setInitialized, .loadAttempt true]
        ∧ StartupEvent.loadAttempt false ∉ initTrace true r)
    ∧ oom true = OomEffect.logZoneEmpty
    ∧ oom false = OomEffect.abortProcess
    ∧ (∀ r : ℤ, StartupEvent.loadAttempt false ∈ initTrace false r) := by
  refine ⟨fun r => ⟨rfl, by simp [initTrace]⟩, rfl, rfl, ?_⟩
  intro r
  unfold initTrace
  by_cases h : do_reload r = true <;> simp [h]


end Rbldnsd
